import Mathlib

/-!
Verification development for the wedding-invitation WhatsApp utility
(src/src/whatsapp/routers/sendMessage.router.ts and
src/prisma/migrations/20240804224958_/migration.sql).

The guest table, the bulk-import route (registrarConvidados), the
confirmation report (confirmados), the broadcast job (sendConvite), the
buttons route (sendButtons) and the media-file middleware (validateMedia)
are embedded as pure Lean functions; route handlers become functions from
the store (the Convidados table, a list of rows) to an updated store plus
an HTTP response, and the outbound gateway becomes an explicit oracle
argument where a claim depends on it.
-/

/-- HTTP status used by every route in the router (HttpStatus.CREATED). -/
def HttpStatus.CREATED : Nat := 201

/-- One row of the Convidados table, as created by the migration.
Columns createdAt and updatedAt are database-managed timestamps that no
route in the router reads or writes; they are not modelled. The
confirmed column has storage default false, presente has default "M",
acompanhantes is a text array. -/
structure Convidado where
  id : Nat
  nome : String
  phone : String
  confirmed : Bool
  presente : String
  acompanhantes : List String
deriving DecidableEq

/-- The Convidados table contents, in insertion order (SERIAL ids). -/
abbrev Store := List Convidado

/-- prisma.convidados.findFirst with a where clause on phone:
first row whose phone matches, if any. -/
def Store.findFirstByPhone (s : Store) (phone : String) : Option Convidado :=
  s.find? (fun c => c.phone == phone)

/-- Next SERIAL id for a freshly inserted row (ids start at 1 and no row
is ever deleted in the routes covered here). -/
def Store.nextId (s : Store) : Nat := s.length + 1

/-- prisma.convidados.create with data nome, phone, presente, as issued
by the registrarConvidados route: the columns not listed in data take
their storage defaults from the migration, in particular
confirmed = false and an empty acompanhantes array. -/
def Store.create (s : Store) (nome phone presente : String) : Store :=
  s ++ [{ id := s.nextId, nome := nome, phone := phone,
          confirmed := false, presente := presente, acompanhantes := [] }]

/-- One element of the registrarConvidados request body:
a guest tuple with nome, phone and presente. -/
structure ConvidadoInput where
  nome : String
  phone : String
  presente : String
deriving DecidableEq

/-- One iteration of the registrarConvidados loop: look the phone up
with findFirst and insert only when no row with that phone exists. -/
def importStep (s : Store) (t : ConvidadoInput) : Store :=
  match s.findFirstByPhone t.phone with
  | some _ => s
  | none => s.create t.nome t.phone t.presente

/-- The registrarConvidados route body: process the submitted tuples in
order, each one checked for a duplicate phone before insertion. -/
def registrarConvidados (body : List ConvidadoInput) (s : Store) : Store :=
  body.foldl importStep s

/-- The registrarConvidados route handler: run the import loop, then
findMany, then answer 201 with the full guest list. -/
def registrarConvidadosHandler (body : List ConvidadoInput) (s : Store) :
    Store × Nat × List Convidado :=
  let s2 := registrarConvidados body s
  (s2, HttpStatus.CREATED, s2)

/-- No two rows of the store share a phone number. -/
def NoDupPhones (s : Store) : Prop := (s.map (fun c => c.phone)).Nodup

instance (s : Store) : Decidable (NoDupPhones s) := by
  unfold NoDupPhones; infer_instance

/-- Body of the confirmados report. -/
structure Relatorio where
  totalConvites : Nat
  totalConfirmados : Nat
  confirmados : List Convidado
deriving DecidableEq

/-- The confirmados route handler: findMany, then answer 201 with the
aggregated report; the store is not written. -/
def confirmadosHandler (s : Store) : Store × Nat × Relatorio :=
  (s, HttpStatus.CREATED,
    { totalConvites := s.length
      totalConfirmados := (s.filter (fun c => c.confirmed)).length
      confirmados := s.filter (fun c => c.confirmed) })

-- ### helper lemmas

theorem findFirstByPhone_eq_none {s : Store} {p : String}
    (h : s.findFirstByPhone p = none) : ∀ c ∈ s, c.phone ≠ p := by
  intro c hc
  have h2 := List.find?_eq_none.mp h c hc
  simpa using h2

theorem importStep_preserves_noDup {s : Store} {t : ConvidadoInput}
    (h : NoDupPhones s) : NoDupPhones (importStep s t) := by
  unfold importStep
  cases hf : s.findFirstByPhone t.phone with
  | some c => exact h
  | none =>
    unfold NoDupPhones Store.create at *
    rw [List.map_append, List.nodup_append]
    refine ⟨h, by simp, ?_⟩
    intro p hp hq
    simp only [List.map_cons, List.map_nil, List.mem_singleton] at hq
    subst hq
    simp only [List.mem_map] at hp
    obtain ⟨c, hc, hcp⟩ := hp
    exact findFirstByPhone_eq_none hf c hc hcp

theorem registrarConvidados_preserves_noDup {s : Store}
    (body : List ConvidadoInput) (h : NoDupPhones s) :
    NoDupPhones (registrarConvidados body s) := by
  induction body generalizing s with
  | nil => exact h
  | cons t rest ih => exact ih (importStep_preserves_noDup h)

theorem importStep_skips_present {s : Store} {t : ConvidadoInput}
    (h : ∃ c ∈ s, c.phone = t.phone) : importStep s t = s := by
  obtain ⟨c, hc, hp⟩ := h
  unfold importStep
  cases hf : s.findFirstByPhone t.phone with
  | some d => rfl
  | none => exact absurd hp (findFirstByPhone_eq_none hf c hc)

-- ### Claim C1

/-- Claim C1: before inserting a tuple the bulk-import loop checks the
store for an existing guest with the same phone and skips insertion when
one is found; consequently (a) one bulk-import call preserves phone
uniqueness, (b) after any sequence of bulk-import calls starting from
the freshly migrated (empty) table no two guests share a phone number,
and (c) submitting a tuple whose phone is already present leaves the
store unchanged, so no duplicate row is created. -/
theorem registrarConvidados_phone_unique :
    (∀ (body : List ConvidadoInput) (s : Store), NoDupPhones s →
        NoDupPhones (registrarConvidados body s)) ∧
    (∀ calls : List (List ConvidadoInput),
        NoDupPhones (calls.foldl (fun s body => registrarConvidados body s) [])) ∧
    (∀ (s : Store) (t : ConvidadoInput), (∃ c ∈ s, c.phone = t.phone) →
        importStep s t = s) := by
  refine ⟨fun body s h => registrarConvidados_preserves_noDup body h, ?_, ?_⟩
  · intro calls
    have base : NoDupPhones ([] : Store) := by simp [NoDupPhones]
    have main : ∀ (cs : List (List ConvidadoInput)) (s : Store), NoDupPhones s →
        NoDupPhones (cs.foldl (fun s body => registrarConvidados body s) s) := by
      intro cs
      induction cs with
      | nil => intro s h; exact h
      | cons b rest ih =>
        intro s h
        exact ih _ (registrarConvidados_preserves_noDup b h)
    exact main calls [] base
  · intro s t h
    exact importStep_skips_present h

/-- Concrete instance of claim C1: importing the same phone twice, then
re-submitting it, creates no duplicate. -/
theorem registrarConvidados_phone_unique_witness :
    NoDupPhones (registrarConvidados
      [⟨"Ana", "+5511999999999", "S"⟩, ⟨"Ana", "+5511999999999", "S"⟩] []) ∧
    importStep [⟨1, "Ana", "+5511999999999", false, "S", []⟩]
      ⟨"Ana bis", "+5511999999999", "S"⟩ =
      [⟨1, "Ana", "+5511999999999", false, "S", []⟩] := by
  constructor
  · exact registrarConvidados_phone_unique.1
      [⟨"Ana", "+5511999999999", "S"⟩, ⟨"Ana", "+5511999999999", "S"⟩] []
      (by decide)
  · exact registrarConvidados_phone_unique.2.2
      [⟨1, "Ana", "+5511999999999", false, "S", []⟩]
      ⟨"Ana bis", "+5511999999999", "S"⟩
      ⟨⟨1, "Ana", "+5511999999999", false, "S", []⟩, by simp, rfl⟩

-- ### Claim C2

/-- Claim C2: the confirmados report answers with totalConvites equal to
the number of guests, totalConfirmados equal to the number of guests
with confirmed = true, and a confirmados list holding exactly the guests
with confirmed = true; the handler leaves the store untouched. Holds for
every store, the empty one included. -/
theorem confirmados_report_correct (s : Store) :
    (confirmadosHandler s).1 = s ∧
    (confirmadosHandler s).2.1 = 201 ∧
    (confirmadosHandler s).2.2.totalConvites = s.length ∧
    (confirmadosHandler s).2.2.totalConfirmados =
      s.countP (fun c => c.confirmed) ∧
    (∀ g : Convidado,
      g ∈ (confirmadosHandler s).2.2.confirmados ↔ g ∈ s ∧ g.confirmed = true) := by
  refine ⟨rfl, rfl, rfl, ?_, ?_⟩
  · simp [confirmadosHandler, List.countP_eq_length_filter]
  · intro g
    simp [confirmadosHandler, List.mem_filter]

-- ### Broadcast job (sendConvite route)

/-- Options object of an outbound gateway payload. -/
structure MessageOptions where
  delay : Nat
  presence : String
  quotedMessageId : Option Nat
deriving DecidableEq

/-- Variant part of an outbound gateway payload as built by the
sendConvite route: a mediaMessage or a textMessage. -/
inductive MessagePayload where
  | mediaMessage (mediatype : String) (media : String)
  | textMessage (text : String)
deriving DecidableEq

/-- One outbound POST to the gateway: path under the base URL, target
number, options and variant payload. -/
structure OutboundRequest where
  path : String
  number : String
  options : MessageOptions
  payload : MessagePayload
deriving DecidableEq

/-- The guests targeted by the broadcast: findMany with
where confirmed = false. -/
def unconfirmedGuests (s : Store) : List Convidado :=
  s.filter (fun c => c.confirmed == false)

/-- One deferred action registered with setTimeout: the delay in
milliseconds and the guest it will message. -/
structure ScheduledSend where
  delayMs : Nat
  convidado : Convidado
deriving DecidableEq

/-- The setTimeout loop over convidados.entries(): the guest at 0-based
index i is scheduled index * 60000 milliseconds after job start; k is
the index of the first remaining guest. -/
def scheduleFrom (k : Nat) : List Convidado → List ScheduledSend
  | [] => []
  | c :: rest => { delayMs := k * 60000, convidado := c } :: scheduleFrom (k + 1) rest

/-- The full schedule produced by the sendConvite route handler. -/
def sendConviteSchedule (s : Store) : List ScheduledSend :=
  scheduleFrom 0 (unconfirmedGuests s)

/-- The media payload sent first by the per-guest deferred action. -/
def inviteImageRequest (c : Convidado) : OutboundRequest :=
  { path := "/message/sendMedia/baby"
    number := c.phone
    options := { delay := 200, presence := "composing", quotedMessageId := some 1 }
    payload := .mediaMessage "image" "https://i.imgur.com/IDJTzgy.jpeg" }

/-- Opening of the invitation template, up to the interpolated guest
name. -/
def inviteTextHead : String := "\n*Convite especial*\n\nOlá "

/-- Remainder of the invitation template after the interpolated guest
name, ending in the numbered-menu footer. -/
def inviteTextTail : String :=
  ", com as bençãos de Deus e de nossos pais e familiares, te convidamos para celebrar o amor!\n\n*Rafael e Letícia*\n\n_Digite o número para a opção:_\n\n*1* - Endereço/horário\n*2* - Confirmar presença\n*3* - Falar com noivos\n*4* - Lista de presentes"

/-- The numbered-menu footer closing the invitation text. -/
def inviteMenuFooter : String :=
  "*1* - Endereço/horário\n*2* - Confirmar presença\n*3* - Falar com noivos\n*4* - Lista de presentes"

/-- The invitation text with the guest name interpolated. -/
def inviteText (nome : String) : String := inviteTextHead ++ nome ++ inviteTextTail

/-- The text payload sent second by the per-guest deferred action. -/
def inviteTextRequest (c : Convidado) : OutboundRequest :=
  { path := "/message/sendText/baby"
    number := c.phone
    options := { delay := 2000, presence := "composing", quotedMessageId := none }
    payload := .textMessage (inviteText c.nome) }

/-- The outbound requests issued, in order, by the deferred sendConvite
action for one guest. -/
def sendConviteActions (c : Convidado) : List OutboundRequest :=
  [inviteImageRequest c, inviteTextRequest c]

/-- Result of one gateway POST as seen by the route: parsed JSON on
success, an error otherwise. -/
inductive GatewayResult where
  | ok (json : String)
  | error (message : String)
deriving DecidableEq

/-- The catch(console.error) attached to each fetch: an error becomes a
console log entry and nothing is propagated. -/
def catchLog : GatewayResult → List String
  | .ok _ => []
  | .error e => [e]

/-- The deferred sendConvite action for one guest, run against a
gateway oracle: POST the media message, swallow any error into the log,
then POST the text message likewise; only the logs remain. -/
def runSendConvite (gw : OutboundRequest → GatewayResult) (c : Convidado) :
    List String :=
  catchLog (gw (inviteImageRequest c)) ++ catchLog (gw (inviteTextRequest c))

/-- The sendConvite route handler: fetch the unconfirmed guests,
register one deferred action per guest, and answer 201 with the
message body at once; the logs of the eventually-run deferred actions
are returned alongside to make the gateway dependence explicit. -/
def sendConviteHandler (gw : OutboundRequest → GatewayResult) (s : Store) :
    List String × Nat × String :=
  let logs := ((sendConviteSchedule s).map (fun a => runSendConvite gw a.convidado)).flatten
  (logs, HttpStatus.CREATED, "Convites sendo enviados")

set_option maxRecDepth 8192

-- ### schedule helper lemmas

theorem scheduleFrom_length (l : List Convidado) (k : Nat) :
    (scheduleFrom k l).length = l.length := by
  induction l generalizing k with
  | nil => rfl
  | cons c rest ih => simp [scheduleFrom, ih]

theorem scheduleFrom_getElem? (l : List Convidado) (k i : Nat) :
    (scheduleFrom k l)[i]? =
      (l[i]?).map (fun c => { delayMs := (k + i) * 60000, convidado := c }) := by
  induction l generalizing k i with
  | nil => simp [scheduleFrom]
  | cons c rest ih =>
    cases i with
    | zero => simp [scheduleFrom]
    | succ j =>
      simp only [scheduleFrom, List.getElem?_cons_succ, ih]
      have harith : k + 1 + j = k + (j + 1) := by omega
      rw [harith]

theorem scheduleFrom_mem_guest (l : List Convidado) (k : Nat) (c : Convidado) :
    (∃ a ∈ scheduleFrom k l, a.convidado = c) ↔ c ∈ l := by
  induction l generalizing k with
  | nil => simp [scheduleFrom]
  | cons d rest ih =>
    simp only [scheduleFrom, List.mem_cons]
    constructor
    · rintro ⟨a, ha, hac⟩
      rcases ha with ha | ha
      · left; rw [← hac, ha]
      · right; exact (ih (k + 1)).mp ⟨a, ha, hac⟩
    · rintro (h | h)
      · exact ⟨{ delayMs := k * 60000, convidado := d }, Or.inl rfl, h.symm⟩
      · obtain ⟨a, ha, hac⟩ := (ih (k + 1)).mpr h
        exact ⟨a, Or.inr ha, hac⟩

-- ### Claim C3

/-- Claim C3: a broadcast trigger with n unconfirmed guests registers
exactly n deferred sends; the guest at 0-based index i of the fetched
list fires i * 60000 milliseconds after job start, and delays never
decrease along the list order. -/
theorem sendConvite_schedule_correct (s : Store) :
    (sendConviteSchedule s).length = (unconfirmedGuests s).length ∧
    (∀ (i : Nat) (c : Convidado), (unconfirmedGuests s)[i]? = some c →
        (sendConviteSchedule s)[i]? = some { delayMs := i * 60000, convidado := c }) ∧
    (∀ (i j : Nat) (a b : ScheduledSend), i ≤ j →
        (sendConviteSchedule s)[i]? = some a →
        (sendConviteSchedule s)[j]? = some b →
        a.delayMs ≤ b.delayMs) := by
  refine ⟨scheduleFrom_length _ 0, ?_, ?_⟩
  · intro i c hc
    rw [sendConviteSchedule, scheduleFrom_getElem?, hc]
    simp
  · intro i j a b hij ha hb
    rw [sendConviteSchedule, scheduleFrom_getElem?] at ha hb
    cases hci : (unconfirmedGuests s)[i]? with
    | none => rw [hci] at ha; simp at ha
    | some ci =>
      cases hcj : (unconfirmedGuests s)[j]? with
      | none => rw [hcj] at hb; simp at hb
      | some cj =>
        rw [hci] at ha
        rw [hcj] at hb
        simp only [Option.map, Option.some.injEq] at ha hb
        rw [← ha, ← hb]
        simpa using Nat.mul_le_mul_right 60000 hij

/-- Concrete instance of claim C3: a store with two unconfirmed guests
yields two deferred sends, at 0 ms and 60000 ms, in list order. -/
theorem sendConvite_schedule_correct_witness :
    (sendConviteSchedule
        [⟨1, "Ana", "11", false, "M", []⟩, ⟨2, "Bia", "22", false, "M", []⟩]).length = 2 ∧
    (sendConviteSchedule
        [⟨1, "Ana", "11", false, "M", []⟩, ⟨2, "Bia", "22", false, "M", []⟩])[1]? =
      some { delayMs := 1 * 60000, convidado := ⟨2, "Bia", "22", false, "M", []⟩ } ∧
    (0 : Nat) * 60000 ≤ 1 * 60000 := by
  refine ⟨?_, ?_, ?_⟩
  · exact (sendConvite_schedule_correct _).1
  · exact (sendConvite_schedule_correct _).2.1 1 ⟨2, "Bia", "22", false, "M", []⟩ rfl
  · have h := (sendConvite_schedule_correct
        [⟨1, "Ana", "11", false, "M", []⟩, ⟨2, "Bia", "22", false, "M", []⟩]).2.2
        0 1 { delayMs := 0 * 60000, convidado := ⟨1, "Ana", "11", false, "M", []⟩ }
        { delayMs := 1 * 60000, convidado := ⟨2, "Bia", "22", false, "M", []⟩ }
        (by decide) rfl rfl
    exact h

-- ### Claim C4

/-- Claim C4: the per-guest deferred action issues the media message
first (fixed image URL, delay 200, presence composing, quoted message 1)
and the text message second, both to the guest phone; the text body is
the invitation template with the guest name interpolated, and it ends
with the fixed numbered-menu footer. -/
theorem sendConvite_media_then_text (c : Convidado) :
    (sendConviteActions c).length = 2 ∧
    (sendConviteActions c)[0]? = some (inviteImageRequest c) ∧
    (sendConviteActions c)[1]? = some (inviteTextRequest c) ∧
    (inviteImageRequest c).payload =
      .mediaMessage "image" "https://i.imgur.com/IDJTzgy.jpeg" ∧
    (inviteImageRequest c).options =
      { delay := 200, presence := "composing", quotedMessageId := some 1 } ∧
    (inviteImageRequest c).path = "/message/sendMedia/baby" ∧
    (inviteImageRequest c).number = c.phone ∧
    (inviteTextRequest c).path = "/message/sendText/baby" ∧
    (inviteTextRequest c).number = c.phone ∧
    (∃ head mid, (inviteTextRequest c).payload =
        .textMessage (head ++ c.nome ++ (mid ++ inviteMenuFooter))) := by
  refine ⟨rfl, rfl, rfl, rfl, rfl, rfl, rfl, rfl, rfl, ?_⟩
  refine ⟨inviteTextHead,
    ", com as bençãos de Deus e de nossos pais e familiares, te convidamos para celebrar o amor!\n\n*Rafael e Letícia*\n\n_Digite o número para a opção:_\n\n", ?_⟩
  show MessagePayload.textMessage (inviteText c.nome) = _
  rw [inviteText]
  have htail : inviteTextTail =
      ", com as bençãos de Deus e de nossos pais e familiares, te convidamos para celebrar o amor!\n\n*Rafael e Letícia*\n\n_Digite o número para a opção:_\n\n"
        ++ inviteMenuFooter := by rfl
  rw [htail]

-- ### Claim C5

/-- Claim C5: a guest is targeted by the broadcast schedule exactly when
it is a stored guest with confirmed = false, so confirmed guests are
never messaged; when no unconfirmed guest exists the schedule is empty
and the handler still answers 201 with the success message, for any
gateway. -/
theorem sendConvite_targets_unconfirmed (s : Store) :
    (∀ c : Convidado,
      (∃ a ∈ sendConviteSchedule s, a.convidado = c) ↔ (c ∈ s ∧ c.confirmed = false)) ∧
    ((∀ c ∈ s, c.confirmed = true) → sendConviteSchedule s = []) ∧
    (∀ gw : OutboundRequest → GatewayResult,
      (sendConviteHandler gw s).2 = (201, "Convites sendo enviados")) := by
  refine ⟨?_, ?_, fun gw => rfl⟩
  · intro c
    rw [sendConviteSchedule, scheduleFrom_mem_guest]
    unfold unconfirmedGuests
    rw [List.mem_filter]
    simp
  · intro hall
    have hempty : unconfirmedGuests s = [] := by
      unfold unconfirmedGuests
      rw [List.filter_eq_nil_iff]
      intro c hc
      simp [hall c hc]
    rw [sendConviteSchedule, hempty]
    rfl

/-- Concrete instance of claim C5: with one confirmed guest, the
membership characterization excludes it, the schedule is empty, and the
handler still answers with the success response. -/
theorem sendConvite_targets_unconfirmed_witness :
    (¬ ∃ a ∈ sendConviteSchedule [⟨1, "Ana", "11", true, "M", []⟩],
        a.convidado = ⟨1, "Ana", "11", true, "M", []⟩) ∧
    sendConviteSchedule [⟨1, "Ana", "11", true, "M", []⟩] = [] ∧
    (sendConviteHandler (fun _ => .ok "") [⟨1, "Ana", "11", true, "M", []⟩]).2 =
      (201, "Convites sendo enviados") := by
  refine ⟨?_, ?_, ?_⟩
  · intro hmem
    have h := ((sendConvite_targets_unconfirmed
        [⟨1, "Ana", "11", true, "M", []⟩]).1 ⟨1, "Ana", "11", true, "M", []⟩).mp hmem
    simp at h
  · exact (sendConvite_targets_unconfirmed [⟨1, "Ana", "11", true, "M", []⟩]).2.1
      (by intro c hc; simp at hc; rw [hc])
  · exact (sendConvite_targets_unconfirmed [⟨1, "Ana", "11", true, "M", []⟩]).2.2
      (fun _ => .ok "")

-- ### Claim C6

/-- Claim C6: the broadcast trigger answers 201 with the fixed success
message (the source string "Convites sendo enviados", rendered in the
spec as "invitations being sent") whatever the gateway does; errors of
the per-guest sends end up in the console log only, so two arbitrary
gateways yield the same HTTP response, and a gateway error adds a log
entry without touching the response. -/
theorem sendConvite_response_constant (gw gw2 : OutboundRequest → GatewayResult)
    (s : Store) :
    (sendConviteHandler gw s).2 = (HttpStatus.CREATED, "Convites sendo enviados") ∧
    (sendConviteHandler gw s).2 = (sendConviteHandler gw2 s).2 ∧
    (∀ m : String, catchLog (.error m) = [m]) ∧
    (∀ j : String, catchLog (.ok j) = []) :=
  ⟨rfl, rfl, fun _ => rfl, fun _ => rfl⟩

-- ### Buttons route (sendButtons)

/-- The exception thrown by the router on a validation failure. -/
structure BadRequestException where
  message : String
deriving DecidableEq

/-- One button spec of a buttons message. Modelled from the spec: the
button DTO class lives in the dto module the router imports, which is
not under src/; only its fields visible in the router (a validate
method returning an error with a message, and the shapes used in the
commented payload: type, displayText, id, url) are modelled. -/
structure Button where
  type : String
  displayText : Option String
  id : Option String
  url : Option String
deriving DecidableEq

/-- Modelled from the spec: the per-button validate method of the
button DTO is not under src/; per the spec a button fails its own
validation when a required field is missing, so a button requires its
displayText, a reply button its id and a url button its url; the
result carries the error message the router wraps. -/
def Button.validate (b : Button) : Option String :=
  if b.displayText.isNone then some "displayText is required"
  else if b.type == "reply" && b.id.isNone then some "id is required"
  else if b.type == "url" && b.url.isNone then some "url is required"
  else none

/-- Body of a sendButtons request after schema validation. -/
structure ButtonsMessage where
  title : String
  description : String
  buttons : List Button
deriving DecidableEq

/-- The dto the sendButtons route builds from the validated body. -/
structure SendButtonsDto where
  number : String
  buttonsMessage : ButtonsMessage
deriving DecidableEq

/-- The validation loop of the sendButtons route: buttons checked one
by one in order, the first error aborts. -/
def firstButtonError (bs : List Button) : Option String :=
  bs.findSome? Button.validate

/-- The sendButtons route handler: run the per-button validation loop,
throwing BadRequestException on the first error; only when every button
passes does the controller forward the dto to the gateway (the second
component lists the gateway calls attempted). -/
def sendButtonsHandler (dto : SendButtonsDto) :
    Except BadRequestException Nat × List SendButtonsDto :=
  match firstButtonError dto.buttonsMessage.buttons with
  | some m => (.error ⟨m⟩, [])
  | none => (.ok HttpStatus.CREATED, [dto])

-- ### Claim C7

/-- Claim C7: when any button of a buttons-message request fails its
validation the whole send is rejected with a BadRequestException and no
outbound gateway call is attempted. -/
theorem sendButtons_invalid_button_rejected (dto : SendButtonsDto)
    (h : ∃ b ∈ dto.buttonsMessage.buttons, (Button.validate b).isSome = true) :
    (∃ m, (sendButtonsHandler dto).1 = .error ⟨m⟩) ∧
    (sendButtonsHandler dto).2 = [] := by
  obtain ⟨b, hb, hv⟩ := h
  cases hf : firstButtonError dto.buttonsMessage.buttons with
  | none =>
    have h2 := List.findSome?_eq_none_iff.mp hf b hb
    rw [h2] at hv
    simp at hv
  | some m =>
    unfold sendButtonsHandler
    rw [hf]
    exact ⟨⟨m, rfl⟩, rfl⟩

/-- Concrete instance of claim C7: a reply button without displayText
aborts the send before any gateway call. -/
theorem sendButtons_invalid_button_rejected_witness :
    (∃ m, (sendButtonsHandler
        ⟨"5511999999999",
          ⟨"Convite especial", "RSVP", [⟨"reply", none, some "confirmar_presenca", none⟩]⟩⟩).1 =
      .error ⟨m⟩) ∧
    (sendButtonsHandler
        ⟨"5511999999999",
          ⟨"Convite especial", "RSVP", [⟨"reply", none, some "confirmar_presenca", none⟩]⟩⟩).2 =
      [] :=
  sendButtons_invalid_button_rejected
    ⟨"5511999999999",
      ⟨"Convite especial", "RSVP", [⟨"reply", none, some "confirmar_presenca", none⟩]⟩⟩
    ⟨⟨"reply", none, some "confirmar_presenca", none⟩, by simp, by decide⟩

-- ### Fallible storage for the bulk import (claim C8)

/-- A storage failure, tagged with the index of the prisma call that
raised it. -/
structure StorageError where
  opIndex : Nat
deriving DecidableEq

/-- findFirst against a store whose calls may fail: fail decides, per
call counter n, whether the call raises; on success the counter
advances. -/
def findFirstByPhoneE (fail : Nat → Bool) (s : Store) (phone : String) (n : Nat) :
    Except StorageError (Option Convidado × Nat) :=
  if fail n then .error ⟨n⟩ else .ok (s.findFirstByPhone phone, n + 1)

/-- create against a store whose calls may fail. -/
def createE (fail : Nat → Bool) (s : Store) (t : ConvidadoInput) (n : Nat) :
    Except StorageError (Store × Nat) :=
  if fail n then .error ⟨n⟩ else .ok (s.create t.nome t.phone t.presente, n + 1)

/-- One iteration of the registrarConvidados loop over the fallible
store: a failing findFirst or create aborts the iteration with the
storage error. -/
def importStepE (fail : Nat → Bool) (sn : Store × Nat) (t : ConvidadoInput) :
    Except StorageError (Store × Nat) :=
  match findFirstByPhoneE fail sn.1 t.phone sn.2 with
  | .error e => .error e
  | .ok (some _, n1) => .ok (sn.1, n1)
  | .ok (none, n1) => createE fail sn.1 t n1

/-- The registrarConvidados loop over the fallible store: the await in
the for-of loop rethrows a storage error, so the fold is monadic. -/
def registrarConvidadosE (fail : Nat → Bool) (body : List ConvidadoInput)
    (sn : Store × Nat) : Except StorageError (Store × Nat) :=
  body.foldlM (importStepE fail) sn

/-- Coherence: with no storage failure the fallible loop computes the
same store as the pure loop. -/
theorem registrarConvidadosE_noFail (body : List ConvidadoInput) (s : Store) (n : Nat) :
    ∃ m, registrarConvidadosE (fun _ => false) body (s, n) =
      .ok (registrarConvidados body s, m) := by
  induction body generalizing s n with
  | nil => exact ⟨n, rfl⟩
  | cons t rest ih =>
    have hstep : importStepE (fun _ => false) (s, n) t =
        .ok (importStep s t, if (s.findFirstByPhone t.phone).isSome then n + 1 else n + 2) := by
      unfold importStepE findFirstByPhoneE createE importStep
      cases s.findFirstByPhone t.phone with
      | none => simp
      | some c => simp
    obtain ⟨m, hm⟩ := ih (importStep s t) (if (s.findFirstByPhone t.phone).isSome then n + 1 else n + 2)
    refine ⟨m, ?_⟩
    unfold registrarConvidadosE at *
    rw [List.foldlM_cons, hstep]
    simpa using hm

-- ### Claim C8

/-- Claim C8: a storage failure while processing a bulk-import sequence
aborts every remaining tuple: whatever tuples follow the failing
prefix, they are neither checked nor inserted and the handler yields
the very storage error of the prefix, propagated rather than
swallowed. -/
theorem registrarConvidados_storage_error_aborts (fail : Nat → Bool)
    (processed rest : List ConvidadoInput) (sn : Store × Nat) (e : StorageError)
    (h : registrarConvidadosE fail processed sn = .error e) :
    registrarConvidadosE fail (processed ++ rest) sn = .error e := by
  induction processed generalizing sn with
  | nil =>
    unfold registrarConvidadosE at h
    simp [pure, Except.pure] at h
  | cons t tl ih =>
    unfold registrarConvidadosE at h ⊢
    simp only [List.cons_append, List.foldlM_cons] at h ⊢
    simp only [bind, Except.bind] at h ⊢
    cases hstep : importStepE fail sn t with
    | error e2 => rw [hstep] at h; exact h
    | ok sn2 => rw [hstep] at h; exact ih sn2 h

/-- Concrete instance of claim C8: the very first prisma call fails, so
the second tuple is never processed and the error is returned. -/
theorem registrarConvidados_storage_error_aborts_witness :
    registrarConvidadosE (fun n => n == 0)
      [⟨"Ana", "11", "M"⟩, ⟨"Bia", "22", "M"⟩] ([], 0) = .error ⟨0⟩ :=
  registrarConvidados_storage_error_aborts (fun n => n == 0)
    [⟨"Ana", "11", "M"⟩] [⟨"Bia", "22", "M"⟩] ([], 0) ⟨0⟩ (by rfl)

-- ### Claim C9

theorem mem_importStep {s : Store} {t : ConvidadoInput} {g : Convidado}
    (h : g ∈ importStep s t) : g ∈ s ∨ g.confirmed = false := by
  unfold importStep at h
  cases hf : s.findFirstByPhone t.phone with
  | some c => rw [hf] at h; exact Or.inl h
  | none =>
    rw [hf] at h
    unfold Store.create at h
    rcases List.mem_append.mp h with h2 | h2
    · exact Or.inl h2
    · right
      rw [List.mem_singleton.mp h2]

theorem mem_registrarConvidados {body : List ConvidadoInput} {s : Store}
    {g : Convidado} (h : g ∈ registrarConvidados body s) :
    g ∈ s ∨ g.confirmed = false := by
  induction body generalizing s with
  | nil => exact Or.inl h
  | cons t rest ih =>
    rcases ih h with h2 | h2
    · exact mem_importStep h2
    · exact Or.inr h2

/-- Claim C9: a guest row created by the bulk-import route (present in
the resulting store but not in the starting one) carries the storage
default confirmed = false, because the create call passes only nome,
phone and presente; hence every freshly imported guest belongs to the
unconfirmed target set the broadcast job fetches. -/
theorem imported_guest_unconfirmed (body : List ConvidadoInput) (s : Store)
    (g : Convidado) (hg : g ∈ registrarConvidados body s) (hnew : g ∉ s) :
    g.confirmed = false ∧ g ∈ unconfirmedGuests (registrarConvidados body s) := by
  have hc : g.confirmed = false := (mem_registrarConvidados hg).resolve_left hnew
  refine ⟨hc, ?_⟩
  unfold unconfirmedGuests
  rw [List.mem_filter]
  exact ⟨hg, by simp [hc]⟩

/-- Concrete instance of claim C9: the guest imported into an empty
store is unconfirmed and targeted by the broadcast. -/
theorem imported_guest_unconfirmed_witness :
    (⟨1, "Ana", "11", false, "M", []⟩ : Convidado).confirmed = false ∧
    (⟨1, "Ana", "11", false, "M", []⟩ : Convidado) ∈
      unconfirmedGuests (registrarConvidados [⟨"Ana", "11", "M"⟩] []) :=
  imported_guest_unconfirmed [⟨"Ana", "11", "M"⟩] []
    ⟨1, "Ana", "11", false, "M", []⟩ (by decide) (by decide)

-- ### Media-file routes (validateMedia middleware)

/-- The multer file attached to a multipart request, as the middleware
sees it. -/
structure UploadedFile where
  fieldname : String
  originalname : String
deriving DecidableEq

/-- The request state the validateMedia middleware inspects: the
optional uploaded file and the presence field of the body. -/
structure MediaRequest where
  file : Option UploadedFile
  presence : Option String
deriving DecidableEq

/-- isEmpty of class-validator on the presence field: empty string or
a missing value. -/
def isEmptyValue (v : Option String) : Bool := v == none || v == some ""

/-- The validateMedia middleware: reject with BadRequestException
"Invalid File" when no file was uploaded or its field name is not
attachment; otherwise normalize an empty presence to undefined and pass
the request on. -/
def validateMedia (req : MediaRequest) : Except BadRequestException MediaRequest :=
  match req.file with
  | none => .error ⟨"Invalid File"⟩
  | some f =>
    if f.fieldname != "attachment" then .error ⟨"Invalid File"⟩
    else .ok { req with presence := if isEmptyValue req.presence then none else req.presence }

/-- The sendMediaFile route pipeline after the multer stage: run
validateMedia, and only on success invoke the controller, which
performs one outbound gateway call (second component). -/
def sendMediaFileRoute (controller : MediaRequest → OutboundRequest)
    (req : MediaRequest) : Except BadRequestException Nat × List OutboundRequest :=
  match validateMedia req with
  | .error e => (.error e, [])
  | .ok r => (.ok HttpStatus.CREATED, [controller r])

/-- The sendWhatsAppAudioFile route pipeline after the multer stage:
same middleware, its own controller. -/
def sendWhatsAppAudioFileRoute (controller : MediaRequest → OutboundRequest)
    (req : MediaRequest) : Except BadRequestException Nat × List OutboundRequest :=
  match validateMedia req with
  | .error e => (.error e, [])
  | .ok r => (.ok HttpStatus.CREATED, [controller r])

-- ### Claim C10

/-- Claim C10: a multipart request carrying no uploaded file, or whose
file field name is not attachment, is rejected by validateMedia with
BadRequestException "Invalid File" on both the media-file and the
audio-file route, whatever the controllers would do, and no outbound
gateway call is attempted. -/
theorem validateMedia_rejects_invalid_file
    (controllerMedia controllerAudio : MediaRequest → OutboundRequest)
    (req : MediaRequest)
    (h : req.file = none ∨ ∀ f, req.file = some f → f.fieldname ≠ "attachment") :
    sendMediaFileRoute controllerMedia req = (.error ⟨"Invalid File"⟩, []) ∧
    sendWhatsAppAudioFileRoute controllerAudio req = (.error ⟨"Invalid File"⟩, []) := by
  have hv : validateMedia req = .error ⟨"Invalid File"⟩ := by
    unfold validateMedia
    cases hf : req.file with
    | none => rfl
    | some f =>
      rcases h with h2 | h2
      · rw [h2] at hf; cases hf
      · have hne := h2 f hf
        simp [hne]
  unfold sendMediaFileRoute sendWhatsAppAudioFileRoute
  rw [hv]
  exact ⟨rfl, rfl⟩

/-- Concrete instance of claim C10: a request with no file and one with
a file under the wrong field name are both rejected on both routes. -/
theorem validateMedia_rejects_invalid_file_witness :
    sendMediaFileRoute (fun _ => inviteImageRequest ⟨1, "a", "1", false, "M", []⟩)
      ⟨none, some "composing"⟩ = (.error ⟨"Invalid File"⟩, []) ∧
    sendWhatsAppAudioFileRoute (fun _ => inviteImageRequest ⟨1, "a", "1", false, "M", []⟩)
      ⟨some ⟨"file", "a.ogg"⟩, none⟩ = (.error ⟨"Invalid File"⟩, []) := by
  constructor
  · exact (validateMedia_rejects_invalid_file
      (fun _ => inviteImageRequest ⟨1, "a", "1", false, "M", []⟩)
      (fun _ => inviteImageRequest ⟨1, "a", "1", false, "M", []⟩)
      ⟨none, some "composing"⟩ (Or.inl rfl)).1
  · exact (validateMedia_rejects_invalid_file
      (fun _ => inviteImageRequest ⟨1, "a", "1", false, "M", []⟩)
      (fun _ => inviteImageRequest ⟨1, "a", "1", false, "M", []⟩)
      ⟨some ⟨"file", "a.ogg"⟩, none⟩
      (Or.inr (by intro f hf; cases hf; decide))).2
